import Mathlib

/-!
Shallow embedding of `apps/builder/src/features/upload/api/generateUploadUrl.ts`.

The TypeScript handler dispatches structurally on field presence
(the JavaScript `in` operator), so the input is modelled as a record of
optional fields (`FilePathProps`): a field is `some _` exactly when the
corresponding key is present on the parsed object.  The four shapes the
zod schema admits (after zod's default stripping of unknown keys) are the
`UploadTarget` inductive, injected into `FilePathProps` by
`UploadTarget.toProps`.

External collaborators (the prisma store, the two permission predicates
`isWriteWorkspaceForbidden` / `isWriteTypebotForbidden`, the presigned-URL
signer, the environment) are parameters, matching the spec's scope which
treats them as external.  Side effects (store lookups, the signing call)
are returned as an explicit trace (`List Effect`) so that ordering claims
("before any store lookup") become statements about the trace.

JavaScript string truthiness (`input.itemId ? ... : ''`,
`env.S3_PUBLIC_CUSTOM_DOMAIN ? ... : ...`, `!env.S3_ENDPOINT`) is modelled
by `truthy`: an absent or empty string is falsy.
-/

deriving instance DecidableEq for Except

namespace UploadApi

/-- TRPC error codes used (or deliberately not used) by the handler. -/
inductive ErrCode where
  | INTERNAL_SERVER_ERROR
  | UNAUTHORIZED
  | BAD_REQUEST
  | NOT_FOUND
  | FORBIDDEN
  deriving DecidableEq, Repr

/-- A thrown `TRPCError({ code, message })`. -/
structure TRPCError where
  code : ErrCode
  message : String
  deriving DecidableEq, Repr

/-- A workspace member row as selected by the handler: `{ userId, role }`. -/
structure Member where
  userId : String
  role : String
  deriving DecidableEq, Repr

/-- The workspace record as selected: only its members list. -/
structure Workspace where
  members : List Member
  deriving DecidableEq, Repr

/-- A typebot collaborator row as selected: `{ userId, type }`. -/
structure Collaborator where
  userId : String
  type : String
  deriving DecidableEq, Repr

/-- The typebot record as selected: owning `workspaceId` and collaborators. -/
structure Typebot where
  workspaceId : String
  collaborators : List Collaborator
  deriving DecidableEq, Repr

/--
The runtime shape of `filePathProps` as the handler observes it: each field
is `some _` iff the key is present on the object.  `resultId` is included
because line 68 of the source tests `'resultId' in filePathProps`, even
though no variant of the zod input schema declares such a key.
-/
structure FilePathProps where
  userId : Option String := none
  workspaceId : Option String := none
  typebotId : Option String := none
  blockId : Option String := none
  itemId : Option String := none
  fileName : Option String := none
  resultId : Option String := none
  deriving DecidableEq, Repr

/-- The four variants the zod `inputSchema` admits for `filePathProps`. -/
inductive UploadTarget where
  | byBlock (workspaceId typebotId blockId : String) (itemId : Option String)
  | byTypebot (workspaceId typebotId fileName : String)
  | byUser (userId fileName : String)
  | byWorkspace (workspaceId fileName : String)
  deriving DecidableEq, Repr

/--
The object produced by zod validation for each variant: exactly the keys the
matched alternative declares (zod's default object mode strips unknown keys,
so in particular no `resultId` key survives validation).
-/
def UploadTarget.toProps : UploadTarget → FilePathProps
  | .byBlock w t b i => { workspaceId := w, typebotId := t, blockId := b, itemId := i }
  | .byTypebot w t f => { workspaceId := w, typebotId := t, fileName := f }
  | .byUser u f => { userId := u, fileName := f }
  | .byWorkspace w f => { workspaceId := w, fileName := f }

/-- JavaScript truthiness of a `string | undefined` value. -/
def truthy : Option String → Bool
  | none => false
  | some s => !(s == "")

/-- Template-literal interpolation of a possibly-undefined string. -/
def interp : Option String → String
  | none => "undefined"
  | some s => s

/--
`input.itemId ? "/items/" + input.itemId : ''` — the suffix is appended only
when `itemId` is truthy (present and non-empty).
-/
def itemSuffix (itemId : Option String) : String :=
  if truthy itemId then "/items/" ++ interp itemId else ""

/-- An observable side effect of one request, in execution order. -/
inductive Effect where
  | lookupWorkspace (id : String)
  | lookupTypebot (id : String)
  | presign (fileType : Option String) (filePath : String)
  deriving DecidableEq, Repr

/-- The environment fields the handler reads. -/
structure Env where
  S3_ENDPOINT : Option String := none
  S3_ACCESS_KEY : Option String := none
  S3_SECRET_KEY : Option String := none
  S3_PUBLIC_CUSTOM_DOMAIN : Option String := none
  deriving DecidableEq, Repr

/-- The storage-credential guard of line 61: all three settings truthy. -/
def cfgOk (e : Env) : Bool :=
  truthy e.S3_ENDPOINT && truthy e.S3_ACCESS_KEY && truthy e.S3_SECRET_KEY

/--
`parseFilePath` (source lines 97–173), returning the derived storage path or
the thrown `TRPCError`, together with the trace of store lookups performed.
`ws` and `tb` are the prisma lookups (`workspace.findUnique`,
`typebot.findUnique`); `wsForbidden` and `tbForbidden` are the external
permission predicates.
-/
def parseFilePath (ws : String → Option Workspace) (tb : String → Option Typebot)
    (wsForbidden : Workspace → String → Bool) (tbForbidden : Typebot → String → Bool)
    (authenticatedUserId : Option String) (input : FilePathProps) :
    Except TRPCError String × List Effect :=
  match authenticatedUserId with
  | none =>
    (.error ⟨.UNAUTHORIZED, "You must be logged in to upload this type of file"⟩, [])
  | some auth =>
    match input.userId with
    | some uid =>
      if uid ≠ auth then
        (.error ⟨.UNAUTHORIZED, "You are not authorized to upload a file for this user"⟩, [])
      else
        (.ok ("public/users/" ++ uid ++ "/" ++ interp input.fileName), [])
    | none =>
      match input.workspaceId with
      | none => (.error ⟨.BAD_REQUEST, "workspaceId is missing"⟩, [])
      | some wsId =>
        match input.typebotId with
        | none =>
          match ws wsId with
          | none => (.error ⟨.NOT_FOUND, "Workspace not found"⟩, [.lookupWorkspace wsId])
          | some w =>
            if wsForbidden w auth then
              (.error ⟨.NOT_FOUND, "Workspace not found"⟩, [.lookupWorkspace wsId])
            else
              (.ok ("public/workspaces/" ++ wsId ++ "/" ++ interp input.fileName),
                [.lookupWorkspace wsId])
        | some tbId =>
          match tb tbId with
          | none => (.error ⟨.NOT_FOUND, "Typebot not found"⟩, [.lookupTypebot tbId])
          | some t =>
            if tbForbidden t auth then
              (.error ⟨.NOT_FOUND, "Typebot not found"⟩, [.lookupTypebot tbId])
            else
              match input.blockId with
              | none =>
                (.ok ("public/workspaces/" ++ wsId ++ "/typebots/" ++ tbId ++ "/"
                    ++ interp input.fileName), [.lookupTypebot tbId])
              | some bId =>
                (.ok ("public/workspaces/" ++ wsId ++ "/typebots/" ++ tbId ++ "/blocks/"
                    ++ bId ++ itemSuffix input.itemId), [.lookupTypebot tbId])

/-- The mutation's successful output `{ presignedUrl, fileUrl }`. -/
structure UploadUrlOutput where
  presignedUrl : String
  fileUrl : String
  deriving DecidableEq, Repr

/--
`presignedUrl.split('?')[0]`: the first chunk of splitting on `?`, i.e. the
longest prefix of the string that contains no `?` character.
-/
def takeBeforeQuery (s : String) : String :=
  String.mk (s.data.takeWhile (fun c => c ≠ '?'))

/--
The mutation body of `generateUploadUrl` (source lines 60–90).  `user` is the
authenticated user's id (`none` when no user); `presignF` is the external
`generatePresignedUrl` signer, a function of file type and file path.
-/
def generateUploadUrl (e : Env)
    (ws : String → Option Workspace) (tb : String → Option Typebot)
    (wsForbidden : Workspace → String → Bool) (tbForbidden : Typebot → String → Bool)
    (presignF : Option String → String → String)
    (user : Option String) (filePathProps : FilePathProps) (fileType : Option String) :
    Except TRPCError UploadUrlOutput × List Effect :=
  if !cfgOk e then
    (.error ⟨.INTERNAL_SERVER_ERROR,
      "S3 not properly configured. Missing one of those variables: S3_ENDPOINT, S3_ACCESS_KEY, S3_SECRET_KEY"⟩,
      [])
  else if filePathProps.resultId.isSome && user.isNone then
    (.error ⟨.UNAUTHORIZED, "You must be logged in to upload a file"⟩, [])
  else
    match parseFilePath ws tb wsForbidden tbForbidden user filePathProps with
    | (.error err, fx) => (.error err, fx)
    | (.ok filePath, fx) =>
      let presignedUrl := presignF fileType filePath
      (.ok
        { presignedUrl := presignedUrl
          fileUrl :=
            if truthy e.S3_PUBLIC_CUSTOM_DOMAIN then
              interp e.S3_PUBLIC_CUSTOM_DOMAIN ++ "/" ++ filePath
            else
              takeBeforeQuery presignedUrl },
        fx ++ [.presign fileType filePath])

/-! ## Claim theorems -/

/--
C1 (counterexample): the claim says the `/items/{itemId}` suffix is appended
if and only if `itemId` is present.  With `itemId` present but equal to the
empty string (admitted by `z.string().optional()`), the source's truthiness
test `input.itemId ? ... : ''` does not append the suffix: the returned path
is `public/workspaces/w1/typebots/t1/blocks/b1`, not the claimed
`public/workspaces/w1/typebots/t1/blocks/b1/items/`.
-/
theorem c1_itemId_presence_counterexample :
    (parseFilePath (fun _ => none) (fun _ => some ⟨"w1", []⟩) (fun _ _ => false)
        (fun _ _ => false) (some "u1")
        (UploadTarget.toProps (.byBlock "w1" "t1" "b1" (some "")))).1
      = .ok "public/workspaces/w1/typebots/t1/blocks/b1"
    ∧ "public/workspaces/w1/typebots/t1/blocks/b1"
      ≠ "public/workspaces/w1/typebots/t1/blocks/b1/items/" := by
  decide

/--
C1 (amended): when the authenticated user is present and the permission
checks pass, `parseFilePath` returns exactly
`public/users/{userId}/{fileName}` for ByUser,
`public/workspaces/{workspaceId}/{fileName}` for ByWorkspace,
`public/workspaces/{workspaceId}/typebots/{typebotId}/{fileName}` for
ByTypebot, and
`public/workspaces/{workspaceId}/typebots/{typebotId}/blocks/{blockId}` for
ByBlock, with `/items/{itemId}` appended if and only if `itemId` is present
and non-empty.
-/
theorem c1_path_formats (ws : String → Option Workspace) (tb : String → Option Typebot)
    (wsForbidden : Workspace → String → Bool) (tbForbidden : Typebot → String → Bool)
    (auth : String) :
    (∀ fn, (parseFilePath ws tb wsForbidden tbForbidden (some auth)
        (UploadTarget.toProps (.byUser auth fn))).1
        = .ok ("public/users/" ++ auth ++ "/" ++ fn))
    ∧ (∀ w fn wrec, ws w = some wrec → wsForbidden wrec auth = false →
        (parseFilePath ws tb wsForbidden tbForbidden (some auth)
          (UploadTarget.toProps (.byWorkspace w fn))).1
          = .ok ("public/workspaces/" ++ w ++ "/" ++ fn))
    ∧ (∀ w t fn trec, tb t = some trec → tbForbidden trec auth = false →
        (parseFilePath ws tb wsForbidden tbForbidden (some auth)
          (UploadTarget.toProps (.byTypebot w t fn))).1
          = .ok ("public/workspaces/" ++ w ++ "/typebots/" ++ t ++ "/" ++ fn))
    ∧ (∀ w t b i trec, tb t = some trec → tbForbidden trec auth = false →
        ((i = none ∨ i = some "") →
          (parseFilePath ws tb wsForbidden tbForbidden (some auth)
            (UploadTarget.toProps (.byBlock w t b i))).1
            = .ok ("public/workspaces/" ++ w ++ "/typebots/" ++ t ++ "/blocks/" ++ b))
        ∧ (∀ s, i = some s → s ≠ "" →
          (parseFilePath ws tb wsForbidden tbForbidden (some auth)
            (UploadTarget.toProps (.byBlock w t b i))).1
            = .ok ("public/workspaces/" ++ w ++ "/typebots/" ++ t ++ "/blocks/" ++ b
                ++ "/items/" ++ s))) := by
  refine ⟨?_, ?_, ?_, ?_⟩
  · intro fn
    simp [parseFilePath, UploadTarget.toProps, interp]
  · intro w fn wrec h1 h2
    simp [parseFilePath, UploadTarget.toProps, h1, h2, interp]
  · intro w t fn trec h1 h2
    simp [parseFilePath, UploadTarget.toProps, h1, h2, interp]
  · intro w t b i trec h1 h2
    constructor
    · rintro (rfl | rfl) <;>
        simp [parseFilePath, UploadTarget.toProps, h1, h2, itemSuffix, truthy, interp]
    · rintro s rfl hs
      simp [parseFilePath, UploadTarget.toProps, h1, h2, itemSuffix, truthy, interp, hs,
        String.append_assoc]

/-- C1 (witness): the amended theorem applied at a concrete ByBlock input. -/
theorem c1_path_formats_witness :
    (parseFilePath (fun _ => none) (fun _ => some ⟨"w1", []⟩) (fun _ _ => false)
        (fun _ _ => false) (some "u1")
        (UploadTarget.toProps (.byBlock "w1" "t1" "b1" (some "i1")))).1
      = .ok "public/workspaces/w1/typebots/t1/blocks/b1/items/i1" := by
  have h := (c1_path_formats (fun _ => none) (fun _ => some ⟨"w1", []⟩) (fun _ _ => false)
    (fun _ _ => false) "u1").2.2.2 "w1" "t1" "b1" (some "i1") ⟨"w1", []⟩ rfl rfl
  exact h.2 "i1" rfl (by decide)

/--
C2: with storage configured, a request with no authenticated user fails with
the Unauthorized error for every validated input variant, with an empty
effect trace: no store lookup, no path derivation, no presigned-URL call.
The same holds of `parseFilePath` itself, whose authentication guard is its
first statement.
-/
theorem c2_unauthenticated_rejected (e : Env)
    (ws : String → Option Workspace) (tb : String → Option Typebot)
    (wsForbidden : Workspace → String → Bool) (tbForbidden : Typebot → String → Bool)
    (presignF : Option String → String → String) (t : UploadTarget) (ft : Option String)
    (hc : cfgOk e = true) :
    generateUploadUrl e ws tb wsForbidden tbForbidden presignF none
        (UploadTarget.toProps t) ft
      = (.error ⟨.UNAUTHORIZED, "You must be logged in to upload this type of file"⟩, [])
    ∧ parseFilePath ws tb wsForbidden tbForbidden none (UploadTarget.toProps t)
      = (.error ⟨.UNAUTHORIZED, "You must be logged in to upload this type of file"⟩, []) := by
  cases t <;> simp [generateUploadUrl, parseFilePath, UploadTarget.toProps, hc]

/-- C2 (witness): the theorem applied at a concrete environment and input. -/
theorem c2_unauthenticated_rejected_witness :
    generateUploadUrl ⟨some "e", some "a", some "s", none⟩ (fun _ => none) (fun _ => none)
        (fun _ _ => false) (fun _ _ => false) (fun _ p => p) none
        (UploadTarget.toProps (.byWorkspace "w1" "f.png")) none
      = (.error ⟨.UNAUTHORIZED, "You must be logged in to upload this type of file"⟩, []) :=
  (c2_unauthenticated_rejected ⟨some "e", some "a", some "s", none⟩ (fun _ => none)
    (fun _ => none) (fun _ _ => false) (fun _ _ => false) (fun _ p => p)
    (.byWorkspace "w1" "f.png") none (by decide)).1

/--
C3 (counterexample): the claim says an unauthenticated request whose variant
carries `userId` fails with the dedicated pre-dispatch unauthorized error of
source lines 68–72 ("You must be logged in to upload a file").  In the source
that guard tests `'resultId' in filePathProps` — a key no validated variant
carries — so it never fires: the concrete unauthenticated ByUser request
below instead fails with the general Unauthorized error raised inside
`parseFilePath`, whose message differs from the dedicated one.
-/
theorem c3_userid_precheck_counterexample :
    generateUploadUrl ⟨some "e", some "a", some "s", none⟩ (fun _ => none) (fun _ => none)
        (fun _ _ => false) (fun _ _ => false) (fun _ p => p) none
        (UploadTarget.toProps (.byUser "u1" "f.png")) none
      = (.error ⟨.UNAUTHORIZED, "You must be logged in to upload this type of file"⟩, [])
    ∧ "You must be logged in to upload this type of file"
      ≠ "You must be logged in to upload a file" := by
  decide

/--
C3 (amended): the pre-dispatch unauthenticated guard tests for a `resultId`
field, which no validated variant carries (zod strips unknown keys), so it
never fires; an unauthenticated request whose variant carries `userId` fails
with the general Unauthorized error raised at the top of `parseFilePath`,
before the `userId` shape dispatch, with an empty effect trace.
-/
theorem c3_resultid_guard_never_fires (e : Env)
    (ws : String → Option Workspace) (tb : String → Option Typebot)
    (wsForbidden : Workspace → String → Bool) (tbForbidden : Typebot → String → Bool)
    (presignF : Option String → String → String) (uid fn : String) (ft : Option String)
    (hc : cfgOk e = true) :
    (∀ t : UploadTarget, (UploadTarget.toProps t).resultId = none)
    ∧ generateUploadUrl e ws tb wsForbidden tbForbidden presignF none
        (UploadTarget.toProps (.byUser uid fn)) ft
      = (.error ⟨.UNAUTHORIZED, "You must be logged in to upload this type of file"⟩, []) := by
  constructor
  · intro t
    cases t <;> rfl
  · simp [generateUploadUrl, parseFilePath, UploadTarget.toProps, hc]

/-- C3 (witness): the amended theorem applied at a concrete input. -/
theorem c3_resultid_guard_never_fires_witness :
    generateUploadUrl ⟨some "e", some "a", some "s", none⟩ (fun _ => none) (fun _ => none)
        (fun _ _ => false) (fun _ _ => false) (fun _ p => p) none
        (UploadTarget.toProps (.byUser "u2" "g.png")) none
      = (.error ⟨.UNAUTHORIZED, "You must be logged in to upload this type of file"⟩, []) :=
  (c3_resultid_guard_never_fires ⟨some "e", some "a", some "s", none⟩ (fun _ => none)
    (fun _ => none) (fun _ _ => false) (fun _ _ => false) (fun _ p => p)
    "u2" "g.png" none (by decide)).2

/--
C7: a ByUser request whose target `userId` differs from the authenticated
user's id fails with the Unauthorized error, for every store — so regardless
of whether a user with that id exists — and with an empty effect trace: no
store lookup is performed for this variant.
-/
theorem c7_byuser_mismatch_unauthorized
    (ws : String → Option Workspace) (tb : String → Option Typebot)
    (wsForbidden : Workspace → String → Bool) (tbForbidden : Typebot → String → Bool)
    (auth uid fn : String) (h : uid ≠ auth) :
    parseFilePath ws tb wsForbidden tbForbidden (some auth)
        (UploadTarget.toProps (.byUser uid fn))
      = (.error ⟨.UNAUTHORIZED, "You are not authorized to upload a file for this user"⟩, []) := by
  simp [parseFilePath, UploadTarget.toProps, h]

/-- C7 (witness): the theorem applied at a concrete mismatched pair of ids. -/
theorem c7_byuser_mismatch_unauthorized_witness :
    parseFilePath (fun _ => none) (fun _ => none) (fun _ _ => false) (fun _ _ => false)
        (some "me") (UploadTarget.toProps (.byUser "other" "f.png"))
      = (.error ⟨.UNAUTHORIZED, "You are not authorized to upload a file for this user"⟩, []) :=
  c7_byuser_mismatch_unauthorized (fun _ => none) (fun _ => none) (fun _ _ => false)
    (fun _ _ => false) "me" "other" "f.png" (by decide)

/--
C4: for any input carrying a `workspaceId` and a `typebotId` and no `userId`
(ByTypebot and ByBlock both have this shape), every successful path starts
with `public/workspaces/{workspaceId}/typebots/{typebotId}` built from the
request input; and the typebot's stored owning `workspaceId` is never used:
two runs whose stored typebot records agree on collaborators — and on the
permission predicate's verdict — but may differ in their `workspaceId`
field (and in everything workspace-store related) produce identical results.
-/
theorem c4_workspace_segment_from_input
    (ws1 ws2 : String → Option Workspace) (tb1 tb2 : String → Option Typebot)
    (wsForbidden1 wsForbidden2 : Workspace → String → Bool)
    (tbForbidden : Typebot → String → Bool)
    (auth w t : String) (props : FilePathProps)
    (hu : props.userId = none) (hw : props.workspaceId = some w)
    (ht : props.typebotId = some t) :
    (∀ p, (parseFilePath ws1 tb1 wsForbidden1 tbForbidden (some auth) props).1 = .ok p →
      ∃ rest, p = "public/workspaces/" ++ w ++ "/typebots/" ++ t ++ rest)
    ∧ (∀ trec1 trec2, tb1 t = some trec1 → tb2 t = some trec2 →
        trec1.collaborators = trec2.collaborators →
        tbForbidden trec1 auth = tbForbidden trec2 auth →
        parseFilePath ws1 tb1 wsForbidden1 tbForbidden (some auth) props
          = parseFilePath ws2 tb2 wsForbidden2 tbForbidden (some auth) props) := by
  constructor
  · intro p hp
    simp only [parseFilePath, hu, hw, ht] at hp
    cases htb : tb1 t with
    | none => simp [htb] at hp
    | some trec =>
      simp only [htb] at hp
      cases hf : tbForbidden trec auth with
      | true => simp [hf] at hp
      | false =>
        simp only [hf] at hp
        cases hb : props.blockId with
        | none =>
          simp only [hb] at hp
          exact ⟨"/" ++ interp props.fileName, by
            simpa [String.append_assoc] using hp.symm⟩
        | some bId =>
          simp only [hb] at hp
          exact ⟨"/blocks/" ++ bId ++ itemSuffix props.itemId, by
            simpa [String.append_assoc] using hp.symm⟩
  · intro trec1 trec2 h1 h2 _hcoll hperm
    simp only [parseFilePath, hu, hw, ht, h1, h2, hperm]

/-- C4 (witness): two stores differing only in the typebot's owning
`workspaceId` produce the same path, built from the input's `workspaceId`. -/
theorem c4_workspace_segment_from_input_witness :
    (∃ rest, "public/workspaces/w1/typebots/t1/f.png"
        = "public/workspaces/" ++ "w1" ++ "/typebots/" ++ "t1" ++ rest)
    ∧ parseFilePath (fun _ => none) (fun _ => some ⟨"wA", []⟩) (fun _ _ => false)
        (fun _ _ => false) (some "u1") (UploadTarget.toProps (.byTypebot "w1" "t1" "f.png"))
      = parseFilePath (fun _ => none) (fun _ => some ⟨"wB", []⟩) (fun _ _ => false)
        (fun _ _ => false) (some "u1") (UploadTarget.toProps (.byTypebot "w1" "t1" "f.png")) := by
  have h := c4_workspace_segment_from_input (fun _ => none) (fun _ => none)
    (fun _ => some ⟨"wA", []⟩) (fun _ => some ⟨"wB", []⟩) (fun _ _ => false) (fun _ _ => false)
    (fun _ _ => false) "u1" "w1" "t1" (UploadTarget.toProps (.byTypebot "w1" "t1" "f.png"))
    rfl rfl rfl
  exact ⟨h.1 "public/workspaces/w1/typebots/t1/f.png" (by decide),
    h.2 ⟨"wA", []⟩ ⟨"wB", []⟩ rfl rfl rfl rfl⟩

/--
C5: for a ByWorkspace request with an authenticated user, a missing
workspace and a forbidden verdict from the workspace-write-permission
predicate both produce the same NotFound error (never a Forbidden error),
and otherwise the path is `public/workspaces/{workspaceId}/{fileName}`.
-/
theorem c5_byworkspace_notfound
    (ws : String → Option Workspace) (tb : String → Option Typebot)
    (wsForbidden : Workspace → String → Bool) (tbForbidden : Typebot → String → Bool)
    (auth w fn : String) :
    (ws w = none →
      parseFilePath ws tb wsForbidden tbForbidden (some auth)
          (UploadTarget.toProps (.byWorkspace w fn))
        = (.error ⟨.NOT_FOUND, "Workspace not found"⟩, [.lookupWorkspace w]))
    ∧ (∀ wrec, ws w = some wrec → wsForbidden wrec auth = true →
        parseFilePath ws tb wsForbidden tbForbidden (some auth)
            (UploadTarget.toProps (.byWorkspace w fn))
          = (.error ⟨.NOT_FOUND, "Workspace not found"⟩, [.lookupWorkspace w]))
    ∧ (∀ wrec, ws w = some wrec → wsForbidden wrec auth = false →
        parseFilePath ws tb wsForbidden tbForbidden (some auth)
            (UploadTarget.toProps (.byWorkspace w fn))
          = (.ok ("public/workspaces/" ++ w ++ "/" ++ fn), [.lookupWorkspace w]))
    ∧ (∀ err, (parseFilePath ws tb wsForbidden tbForbidden (some auth)
          (UploadTarget.toProps (.byWorkspace w fn))).1 = .error err →
        err.code = .NOT_FOUND ∧ err.code ≠ .FORBIDDEN) := by
  refine ⟨?_, ?_, ?_, ?_⟩
  · intro h
    simp [parseFilePath, UploadTarget.toProps, h]
  · intro wrec h1 h2
    simp [parseFilePath, UploadTarget.toProps, h1, h2]
  · intro wrec h1 h2
    simp [parseFilePath, UploadTarget.toProps, h1, h2, interp]
  · intro err herr
    simp only [parseFilePath, UploadTarget.toProps] at herr
    cases hws : ws w with
    | none =>
      simp only [hws] at herr
      cases herr
      exact ⟨rfl, by decide⟩
    | some wrec =>
      simp only [hws] at herr
      cases hf : wsForbidden wrec auth with
      | true =>
        simp only [hf] at herr
        cases herr
        exact ⟨rfl, by decide⟩
      | false => simp [hf] at herr

/-- C5 (witness): the theorem applied with a store lacking the workspace. -/
theorem c5_byworkspace_notfound_witness :
    parseFilePath (fun _ => none) (fun _ => none) (fun _ _ => false) (fun _ _ => false)
        (some "u1") (UploadTarget.toProps (.byWorkspace "w1" "f.png"))
      = (.error ⟨.NOT_FOUND, "Workspace not found"⟩, [.lookupWorkspace "w1"]) :=
  (c5_byworkspace_notfound (fun _ => none) (fun _ => none) (fun _ _ => false)
    (fun _ _ => false) "u1" "w1" "f.png").1 rfl

/--
C6: for any input carrying a `workspaceId` and a `typebotId` and no `userId`
(ByTypebot and ByBlock both have this shape), with an authenticated user, a
missing typebot and a forbidden verdict from the typebot-write-permission
predicate both fail with the NotFound error — no path is produced, and only
the single typebot lookup has run.
-/
theorem c6_typebot_notfound
    (ws : String → Option Workspace) (tb : String → Option Typebot)
    (wsForbidden : Workspace → String → Bool) (tbForbidden : Typebot → String → Bool)
    (auth w t : String) (props : FilePathProps)
    (hu : props.userId = none) (hw : props.workspaceId = some w)
    (ht : props.typebotId = some t) :
    (tb t = none →
      parseFilePath ws tb wsForbidden tbForbidden (some auth) props
        = (.error ⟨.NOT_FOUND, "Typebot not found"⟩, [.lookupTypebot t]))
    ∧ (∀ trec, tb t = some trec → tbForbidden trec auth = true →
        parseFilePath ws tb wsForbidden tbForbidden (some auth) props
          = (.error ⟨.NOT_FOUND, "Typebot not found"⟩, [.lookupTypebot t])) := by
  constructor
  · intro h
    simp [parseFilePath, hu, hw, ht, h]
  · intro trec h1 h2
    simp [parseFilePath, hu, hw, ht, h1, h2]

/-- C6 (witness): the theorem applied at a ByBlock input whose typebot the
permission predicate forbids. -/
theorem c6_typebot_notfound_witness :
    parseFilePath (fun _ => none) (fun _ => some ⟨"w1", []⟩) (fun _ _ => false)
        (fun _ _ => true) (some "u1")
        (UploadTarget.toProps (.byBlock "w1" "t1" "b1" none))
      = (.error ⟨.NOT_FOUND, "Typebot not found"⟩, [.lookupTypebot "t1"]) :=
  (c6_typebot_notfound (fun _ => none) (fun _ => some ⟨"w1", []⟩) (fun _ _ => false)
    (fun _ _ => true) "u1" "w1" "t1" (UploadTarget.toProps (.byBlock "w1" "t1" "b1" none))
    rfl rfl rfl).2 ⟨"w1", []⟩ rfl rfl

/--
C8: whenever the path resolver succeeds, the operation succeeds, its
`presignedUrl` is the signer's output for that path, and its `fileUrl` is
the configured public custom domain concatenated with `/` and the storage
path when such a (non-empty) domain is configured, and otherwise the
presigned URL truncated at the first `?` character.
-/
theorem c8_fileurl_composition (e : Env)
    (ws : String → Option Workspace) (tb : String → Option Typebot)
    (wsForbidden : Workspace → String → Bool) (tbForbidden : Typebot → String → Bool)
    (presignF : Option String → String → String) (user : Option String)
    (props : FilePathProps) (ft : Option String) (p : String)
    (hc : cfgOk e = true)
    (hp : (parseFilePath ws tb wsForbidden tbForbidden user props).1 = .ok p) :
    ∃ out fx, generateUploadUrl e ws tb wsForbidden tbForbidden presignF user props ft
        = (.ok out, fx)
      ∧ out.presignedUrl = presignF ft p
      ∧ (∀ d, e.S3_PUBLIC_CUSTOM_DOMAIN = some d → d ≠ "" → out.fileUrl = d ++ "/" ++ p)
      ∧ (e.S3_PUBLIC_CUSTOM_DOMAIN = none →
          out.fileUrl = takeBeforeQuery (presignF ft p)) := by
  have huser : user.isNone = false := by
    cases user with
    | none => simp [parseFilePath] at hp
    | some u => rfl
  rcases hres : parseFilePath ws tb wsForbidden tbForbidden user props with ⟨r, fx⟩
  rw [hres] at hp
  simp only at hp
  subst hp
  refine ⟨⟨presignF ft p,
      if truthy e.S3_PUBLIC_CUSTOM_DOMAIN then interp e.S3_PUBLIC_CUSTOM_DOMAIN ++ "/" ++ p
      else takeBeforeQuery (presignF ft p)⟩,
    fx ++ [.presign ft p], ?_, rfl, ?_, ?_⟩
  · simp [generateUploadUrl, hc, huser, hres]
  · intro d hd hne
    simp [hd, truthy, interp, hne]
  · intro hd
    simp [hd, truthy]

/-- C8 (witness): a concrete successful run; with the domain unset the
`fileUrl` is the presigned URL cut at its query string. -/
theorem c8_fileurl_composition_witness :
    ∃ out fx,
      generateUploadUrl ⟨some "e", some "a", some "s", none⟩
          (fun _ => some ⟨[⟨"u1", "ADMIN"⟩]⟩) (fun _ => none) (fun _ _ => false)
          (fun _ _ => false) (fun _ p => "https://s3.host/" ++ p ++ "?X-Amz-Signature=abc")
          (some "u1") (UploadTarget.toProps (.byWorkspace "w1" "f.png")) (some "image/png")
        = (.ok out, fx)
      ∧ out.presignedUrl
        = (fun _ p => "https://s3.host/" ++ p ++ "?X-Amz-Signature=abc")
            (some "image/png") "public/workspaces/w1/f.png"
      ∧ (∀ d, (none : Option String) = some d → d ≠ "" → out.fileUrl = d ++ "/" ++ "public/workspaces/w1/f.png")
      ∧ ((none : Option String) = none →
          out.fileUrl = takeBeforeQuery
            ((fun _ p => "https://s3.host/" ++ p ++ "?X-Amz-Signature=abc")
              (some "image/png") "public/workspaces/w1/f.png")) :=
  c8_fileurl_composition ⟨some "e", some "a", some "s", none⟩
    (fun _ => some ⟨[⟨"u1", "ADMIN"⟩]⟩) (fun _ => none) (fun _ _ => false) (fun _ _ => false)
    (fun _ p => "https://s3.host/" ++ p ++ "?X-Amz-Signature=abc") (some "u1")
    (UploadTarget.toProps (.byWorkspace "w1" "f.png")) (some "image/png")
    "public/workspaces/w1/f.png" (by decide) (by decide)

/--
C9: if any one of the three storage credential settings is unset (falsy),
the operation fails with the internal configuration error for every user —
authenticated or not — and every input shape, with an empty effect trace:
the guard runs before authentication and before any shape dispatch.
-/
theorem c9_config_guard_first (e : Env)
    (ws : String → Option Workspace) (tb : String → Option Typebot)
    (wsForbidden : Workspace → String → Bool) (tbForbidden : Typebot → String → Bool)
    (presignF : Option String → String → String) (user : Option String)
    (props : FilePathProps) (ft : Option String)
    (h : truthy e.S3_ENDPOINT = false ∨ truthy e.S3_ACCESS_KEY = false
        ∨ truthy e.S3_SECRET_KEY = false) :
    generateUploadUrl e ws tb wsForbidden tbForbidden presignF user props ft
      = (.error ⟨.INTERNAL_SERVER_ERROR,
          "S3 not properly configured. Missing one of those variables: S3_ENDPOINT, S3_ACCESS_KEY, S3_SECRET_KEY"⟩,
        []) := by
  have hcfg : cfgOk e = false := by
    rcases h with h | h | h <;> simp [cfgOk, h]
  simp [generateUploadUrl, hcfg]

/-- C9 (witness): the theorem applied with a missing secret key, an
authenticated user and a ByBlock input. -/
theorem c9_config_guard_first_witness :
    generateUploadUrl ⟨some "e", some "a", none, none⟩ (fun _ => none) (fun _ => none)
        (fun _ _ => false) (fun _ _ => false) (fun _ p => p) (some "u1")
        (UploadTarget.toProps (.byBlock "w1" "t1" "b1" none)) none
      = (.error ⟨.INTERNAL_SERVER_ERROR,
          "S3 not properly configured. Missing one of those variables: S3_ENDPOINT, S3_ACCESS_KEY, S3_SECRET_KEY"⟩,
        []) :=
  c9_config_guard_first ⟨some "e", some "a", none, none⟩ (fun _ => none) (fun _ => none)
    (fun _ _ => false) (fun _ _ => false) (fun _ p => p) (some "u1")
    (UploadTarget.toProps (.byBlock "w1" "t1" "b1" none)) none (Or.inr (Or.inr rfl))

/--
C10: with storage configured, an authenticated request whose input carries
neither a `userId` key nor a `workspaceId` key fails with the BadRequest
error; and conversely, a BadRequest error is only ever produced for such an
input (with a user present) — no other condition raises BadRequest.
-/
theorem c10_badrequest_iff (e : Env)
    (ws : String → Option Workspace) (tb : String → Option Typebot)
    (wsForbidden : Workspace → String → Bool) (tbForbidden : Typebot → String → Bool)
    (presignF : Option String → String → String) (ft : Option String)
    (hc : cfgOk e = true) :
    (∀ (auth : String) (props : FilePathProps), props.userId = none →
      props.workspaceId = none →
      generateUploadUrl e ws tb wsForbidden tbForbidden presignF (some auth) props ft
        = (.error ⟨.BAD_REQUEST, "workspaceId is missing"⟩, []))
    ∧ (∀ (user : Option String) (props : FilePathProps) (err : TRPCError)
        (fx : List Effect),
        generateUploadUrl e ws tb wsForbidden tbForbidden presignF user props ft
          = (.error err, fx) →
        err.code = .BAD_REQUEST →
        user.isSome = true ∧ props.userId = none ∧ props.workspaceId = none) := by
  constructor
  · intro auth props h1 h2
    simp [generateUploadUrl, parseFilePath, hc, h1, h2]
  · intro user props err fx hrun hcode
    cases user with
    | none =>
      exfalso
      cases hr : props.resultId <;>
        · simp [generateUploadUrl, parseFilePath, hc, hr] at hrun
          rcases hrun with ⟨rfl, rfl⟩
          simp at hcode
    | some auth =>
      refine ⟨rfl, ?_⟩
      cases hpu : props.userId with
      | some uid =>
        exfalso
        rcases eq_or_ne uid auth with rfl | hne
        · simp [generateUploadUrl, parseFilePath, hc, hpu] at hrun
        · simp [generateUploadUrl, parseFilePath, hc, hpu, hne] at hrun
          rcases hrun with ⟨rfl, rfl⟩
          simp at hcode
      | none =>
        cases hpw : props.workspaceId with
        | none => exact ⟨rfl, rfl⟩
        | some w =>
          exfalso
          cases hpt : props.typebotId with
          | none =>
            cases hws : ws w with
            | none =>
              simp [generateUploadUrl, parseFilePath, hc, hpu, hpw, hpt, hws] at hrun
              rcases hrun with ⟨rfl, rfl⟩
              simp at hcode
            | some wrec =>
              cases hf : wsForbidden wrec auth with
              | true =>
                simp [generateUploadUrl, parseFilePath, hc, hpu, hpw, hpt, hws, hf] at hrun
                rcases hrun with ⟨rfl, rfl⟩
                simp at hcode
              | false =>
                simp [generateUploadUrl, parseFilePath, hc, hpu, hpw, hpt, hws, hf] at hrun
          | some t =>
            cases htb : tb t with
            | none =>
              simp [generateUploadUrl, parseFilePath, hc, hpu, hpw, hpt, htb] at hrun
              rcases hrun with ⟨rfl, rfl⟩
              simp at hcode
            | some trec =>
              cases hf : tbForbidden trec auth with
              | true =>
                simp [generateUploadUrl, parseFilePath, hc, hpu, hpw, hpt, htb, hf] at hrun
                rcases hrun with ⟨rfl, rfl⟩
                simp at hcode
              | false =>
                cases hb : props.blockId <;>
                  simp [generateUploadUrl, parseFilePath, hc, hpu, hpw, hpt, htb, hf, hb]
                    at hrun

/-- C10 (witness): a record with no `userId` and no `workspaceId` key —
expressible because dispatch is structural — yields BadRequest. -/
theorem c10_badrequest_iff_witness :
    generateUploadUrl ⟨some "e", some "a", some "s", none⟩ (fun _ => none) (fun _ => none)
        (fun _ _ => false) (fun _ _ => false) (fun _ p => p) (some "u1")
        { typebotId := some "t1", fileName := some "f.png" } none
      = (.error ⟨.BAD_REQUEST, "workspaceId is missing"⟩, []) :=
  (c10_badrequest_iff ⟨some "e", some "a", some "s", none⟩ (fun _ => none) (fun _ => none)
    (fun _ _ => false) (fun _ _ => false) (fun _ p => p) none (by decide)).1
    "u1" { typebotId := some "t1", fileName := some "f.png" } rfl rfl

end UploadApi
